import Mathlib

/-!
Shallow embedding of the library-loan system in `src/index.ts`.

Mutable heap objects are modelled by indices into explicit state:
books live in a list `libros` and a `Prestamo` stores the index of its
book; a manager's `prestamos` array is a Lean list; `notificador.enviar`
calls are logged in an append-only `sent` list (the boolean result of
`enviar` is computed and discarded, exactly as the source does).
Timestamps are integers counting milliseconds since the epoch (UTC);
`new Date()` becomes an explicit `ahora` parameter.
-/

namespace Biblioteca

/-- `class Libro` (src/index.ts:9-21): the constructor sets `disponible = true`. -/
structure Libro where
  titulo : String
  autor : String
  isbn : String
  disponible : Bool
deriving DecidableEq

/-- `new Libro(titulo, autor, isbn)` (src/index.ts:15-20). -/
def Libro.nuevo (titulo autor isbn : String) : Libro :=
  { titulo := titulo, autor := autor, isbn := isbn, disponible := true }

/-- `class Usuario` (src/index.ts:23-31); immutable after construction. -/
structure Usuario where
  nombre : String
  id_usuario : String
deriving DecidableEq

/-- Milliseconds in one day, the divisor `1000 * 60 * 60 * 24` of src/index.ts:164. -/
def msPorDia : Int := 1000 * 60 * 60 * 24

/-- `class Prestamo` (src/index.ts:33-48). `libro` is the index of the shared
`Libro` object in the state's `libros` list. -/
structure Prestamo where
  libro : Nat
  usuario : Usuario
  fecha_prestamo : Int
  fecha_devolucion : Int
  devuelto : Bool
deriving DecidableEq

/-- `new Prestamo(libro, usuario)` at time `ahora` (src/index.ts:40-47):
`fecha_prestamo = now`, `fecha_devolucion = now + 14 days`
(`setDate(getDate() + 14)`, i.e. fourteen days later), `devuelto = false`. -/
def Prestamo.nuevo (libro : Nat) (usuario : Usuario) (ahora : Int) : Prestamo :=
  { libro := libro, usuario := usuario, fecha_prestamo := ahora,
    fecha_devolucion := ahora + 14 * msPorDia, devuelto := false }

/-- `MultaEstandar.calcular` (src/index.ts:59-63): `dias_retraso * 10`. -/
def MultaEstandar.calcular (dias_retraso : Int) : Int :=
  dias_retraso * 10

/-- `MultaEstudiante.calcular` (src/index.ts:65-69): `dias_retraso * 5`. -/
def MultaEstudiante.calcular (dias_retraso : Int) : Int :=
  dias_retraso * 5

/-- `MultaVIP.calcular` (src/index.ts:71-75): constant `0`. -/
def MultaVIP.calcular (dias_retraso : Int) : Int :=
  0

/-- `NotificadorEmail.enviar` (src/index.ts:86-91): logs and returns `true`. -/
def NotificadorEmail.enviar (mensaje destino : String) : Bool :=
  true

/-- `NotificadorSMS.enviar` (src/index.ts:93-98): logs and returns `true`. -/
def NotificadorSMS.enviar (mensaje destino : String) : Bool :=
  true

/-- Proleptic-Gregorian civil date `(year, month, day)` from a count of days
since 1970-01-01, as used by `Date.prototype.toISOString` (UTC). -/
def civilDesdeDias (z0 : Int) : Int × Int × Int :=
  let z := z0 + 719468
  let era := Int.fdiv z 146097
  let doe := z - era * 146097
  let yoe := Int.fdiv (doe - Int.fdiv doe 1460 + Int.fdiv doe 36524 - Int.fdiv doe 146096) 365
  let y := yoe + era * 400
  let doy := doe - (365 * yoe + Int.fdiv yoe 4 - Int.fdiv yoe 100)
  let mp := Int.fdiv (5 * doy + 2) 153
  let d := doy - Int.fdiv (153 * mp + 2) 5 + 1
  let m := mp + (if mp < 10 then 3 else -9)
  (y + (if m ≤ 2 then 1 else 0), m, d)

/-- Two-digit zero padding of a month or day number. -/
def pad2 (n : Int) : String :=
  if n < 10 then "0" ++ toString n else toString n

/-- The date portion of `t.toISOString()`, i.e. `toISOString().split("T")[0]`
(src/index.ts:144): `YYYY-MM-DD` of the UTC day containing `t`. -/
def fechaISO (t : Int) : String :=
  let ymd := civilDesdeDias (Int.fdiv t msPorDia)
  toString ymd.1 ++ "-" ++ pad2 ymd.2.1 ++ "-" ++ pad2 ymd.2.2

/-- The notification message of src/index.ts:143-145:
`Has prestado '<titulo>'. Fecha de devolución: <fecha ISO>`. -/
def mensajePrestamo (titulo : String) (fecha_devolucion : Int) : String :=
  "Has prestado \x27" ++ titulo ++ "\x27. Fecha de devolución: " ++
    fechaISO fecha_devolucion

/-- The mutable state a single `GestorPrestamos` call touches: the shared
`Libro` objects, the manager's `prestamos` array (src/index.ts:125), and the
append-only log of `notificador.enviar` calls `(mensaje, destinatario)`. -/
structure Estado where
  libros : List Libro
  prestamos : List Prestamo
  sent : List (String × String)
deriving DecidableEq

/-- In-place mutation `libros[j].disponible = b` of a shared `Libro` object. -/
def setDisponible (libros : List Libro) (j : Nat) (b : Bool) : List Libro :=
  match libros[j]? with
  | some lb => libros.set j { lb with disponible := b }
  | none => libros

/-- `GestorPrestamos.realizar_prestamo(libro, usuario)` (src/index.ts:133-152)
at time `ahora`, with the injected `notificador`.  If the book is unavailable
it returns `null` (here `none`) without touching anything; otherwise it marks
the book unavailable, constructs the `Prestamo`, pushes it, sends one
notification (whose boolean result is discarded) and returns the loan.
An out-of-range book index has no TypeScript counterpart and is a no-op. -/
def realizar_prestamo (notificador : String → String → Bool) (ahora : Int)
    (s : Estado) (li : Nat) (usuario : Usuario) : Estado × Option Prestamo :=
  match s.libros[li]? with
  | none => (s, none)
  | some libro =>
    if !libro.disponible then
      (s, none)
    else
      let prestamo := Prestamo.nuevo li usuario ahora
      let mensaje := mensajePrestamo libro.titulo prestamo.fecha_devolucion
      let _ := notificador mensaje usuario.nombre
      ({ libros := setDisponible s.libros li false,
         prestamos := s.prestamos ++ [prestamo],
         sent := s.sent ++ [(mensaje, usuario.nombre)] },
       some prestamo)

/-- The reported outcome of `devolver_libro`: the console messages of
src/index.ts:156, 167 and 169. -/
inductive Resultado where
  | yaDevuelto : Resultado
  | retraso : Int → Int → Resultado
  | aTiempo : Resultado
deriving DecidableEq

/-- `GestorPrestamos.devolver_libro(prestamo)` (src/index.ts:154-177) at time
`ahora` on the loan at index `i`, with the injected `calculadora_multa`.
Already-returned loans are reported and nothing changes.  Otherwise, when
`ahora` is past the due date the code reports
`Math.floor((now - due) / msPorDia)` late days and the corresponding fine,
else an on-time return; in both cases it then sets `devuelto = true` and
makes the book available again.  An out-of-range loan index has no
TypeScript counterpart and yields `(s, none)`. -/
def devolver_libro (calculadora_multa : Int → Int) (ahora : Int)
    (s : Estado) (i : Nat) : Estado × Option Resultado :=
  match s.prestamos[i]? with
  | none => (s, none)
  | some prestamo =>
    if prestamo.devuelto then
      (s, some Resultado.yaDevuelto)
    else
      let r :=
        if prestamo.fecha_devolucion < ahora then
          let dias_retraso := Int.fdiv (ahora - prestamo.fecha_devolucion) msPorDia
          Resultado.retraso dias_retraso (calculadora_multa dias_retraso)
        else
          Resultado.aTiempo
      ({ libros := setDisponible s.libros prestamo.libro true,
         prestamos := s.prestamos.set i { prestamo with devuelto := true },
         sent := s.sent },
       some r)

/-- A `GestorPrestamos` instance's own mutable fields: its `prestamos` array
and its log of sent notifications.  The injected `calculadora_multa` and
`notificador` are immutable after construction and are passed separately. -/
structure Gestor where
  prestamos : List Prestamo
  sent : List (String × String)
deriving DecidableEq

/-- The whole mutable world: the shared books and any number of managers. -/
structure Sistema where
  libros : List Libro
  gestores : List Gestor
deriving DecidableEq

/-- A fresh world: every book just constructed (`disponible = true`,
src/index.ts:19) and `n` managers with empty `prestamos` (src/index.ts:130). -/
def Sistema.inicial (catalogo : List (String × String × String)) (n : Nat) : Sistema :=
  { libros := catalogo.map (fun t => Libro.nuevo t.1 t.2.1 t.2.2),
    gestores := List.replicate n { prestamos := [], sent := [] } }

/-- One call against some manager.  `realizar g li u t`: manager `g` runs
`realizar_prestamo` on book `li` for user `u` at time `t`.
`devolver g gd i t`: manager `g` runs `devolver_libro` at time `t` on the
loan stored at index `i` of manager `gd`'s `prestamos` array (a `Prestamo`
object may be handed to any manager, as `main` could do). -/
inductive Cmd where
  | realizar : Nat → Nat → Usuario → Int → Cmd
  | devolver : Nat → Nat → Nat → Int → Cmd
deriving DecidableEq

/-- The per-manager configuration: `(calculadora_multa, notificador)`
injected at construction (src/index.ts:127-131). -/
def Config : Type := Nat → (Int → Int) × (String → String → Bool)

/-- Write back the books and manager `g`'s own fields after a call. -/
def escribe (s : Sistema) (g : Nat) (est : Estado) : Sistema :=
  { libros := est.libros,
    gestores := s.gestores.set g { prestamos := est.prestamos, sent := est.sent } }

/-- The `Estado` a call through manager `g` (with fields `gst`) touches. -/
def vista (s : Sistema) (gst : Gestor) : Estado :=
  { libros := s.libros, prestamos := gst.prestamos, sent := gst.sent }

/-- Execute one call on the world: run the corresponding method on the
state it touches and write back the books and the owning manager's fields. -/
def step (cfg : Config) (s : Sistema) (c : Cmd) : Sistema :=
  match c with
  | Cmd.realizar g li u t =>
    match s.gestores[g]? with
    | none => s
    | some gst =>
      escribe s g (realizar_prestamo (cfg g).2 t (vista s gst) li u).1
  | Cmd.devolver g gd i t =>
    match s.gestores[gd]? with
    | none => s
    | some gst =>
      escribe s gd (devolver_libro (cfg g).1 t (vista s gst) i).1

/-- The run of a call sequence from a state. -/
def run (cfg : Config) (s : Sistema) (cs : List Cmd) : Sistema :=
  cs.foldl (step cfg) s

/-- All loans of all managers, in manager order. -/
def todosPrestamos : List Gestor → List Prestamo
  | [] => []
  | g :: gs => g.prestamos ++ todosPrestamos gs

/-- The loan at index `i` of manager `g`'s array, if any. -/
def prestamoEn (s : Sistema) (g i : Nat) : Option Prestamo :=
  match s.gestores[g]? with
  | none => none
  | some gst => gst.prestamos[i]?

/-- Whether a loan is an open (unreturned) loan of book `li`. -/
def abierto (li : Nat) (p : Prestamo) : Bool :=
  p.libro == li && !p.devuelto

/-- Number of open loans of book `li` across a list of managers. -/
def cuentaAbiertosL (gs : List Gestor) (li : Nat) : Nat :=
  (todosPrestamos gs).countP (abierto li)

/-- Number of open loans of book `li` in the whole world. -/
def cuentaAbiertos (s : Sistema) (li : Nat) : Nat :=
  cuentaAbiertosL s.gestores li

/-- The inductive invariant: each book is available exactly when it has no
open loan, and it never has more than one open loan. -/
def Invariante (s : Sistema) : Prop :=
  ∀ li lb, s.libros[li]? = some lb →
    (lb.disponible = true ↔ cuentaAbiertos s li = 0) ∧ cuentaAbiertos s li ≤ 1

/-- A sample user for concrete evaluations (src/index.ts:197). -/
def ana : Usuario :=
  { nombre := "Ana García", id_usuario := "U001" }

/-- A sample open loan of book `0`, issued 14 days before epoch, due at `0`. -/
def prestamoMuestra : Prestamo :=
  { libro := 0, usuario := ana, fecha_prestamo := -(14 * msPorDia),
    fecha_devolucion := 0, devuelto := false }

/-- A sample state in which book `0` is out on `prestamoMuestra`. -/
def estadoMuestra : Estado :=
  { libros := [{ titulo := "1984", autor := "George Orwell",
                 isbn := "978-0-452-28423-4", disponible := false }],
    prestamos := [prestamoMuestra],
    sent := [] }

/-- A sample fresh state: one just-constructed book, no loans. -/
def estadoFresco : Estado :=
  { libros := [Libro.nuevo "1984" "George Orwell" "978-0-452-28423-4"],
    prestamos := [],
    sent := [] }

/-- A sample world: the books of `estadoMuestra` and one manager holding
`prestamoMuestra`. -/
def sistemaMuestra : Sistema :=
  { libros := estadoMuestra.libros,
    gestores := [{ prestamos := [prestamoMuestra], sent := [] }] }

/-- A sample configuration: every manager uses the standard calculator and
the email notifier. -/
def cfgMuestra : Config :=
  fun _ => (MultaEstandar.calcular, NotificadorEmail.enviar)

/-! ### Basic lemmas about single calls -/

theorem msPorDia_eq : msPorDia = 86400000 := by
  norm_num [msPorDia]

/-- `realizar_prestamo` on an available book: the exact resulting state. -/
theorem realizar_prestamo_disponible (notificador : String → String → Bool)
    (ahora : Int) (s : Estado) (li : Nat) (u : Usuario) (lb : Libro)
    (hlb : s.libros[li]? = some lb) (hav : lb.disponible = true) :
    realizar_prestamo notificador ahora s li u =
      ({ libros := s.libros.set li { lb with disponible := false },
         prestamos := s.prestamos ++ [Prestamo.nuevo li u ahora],
         sent := s.sent ++
           [(mensajePrestamo lb.titulo (ahora + 14 * msPorDia), u.nombre)] },
       some (Prestamo.nuevo li u ahora)) := by
  unfold realizar_prestamo
  rw [hlb]
  simp [hav, setDisponible, hlb, Prestamo.nuevo, mensajePrestamo]

/-- `devolver_libro` on an already returned loan changes nothing. -/
theorem devolver_libro_ya (cm : Int → Int) (ahora : Int) (s : Estado)
    (i : Nat) (p : Prestamo) (hp : s.prestamos[i]? = some p)
    (hret : p.devuelto = true) :
    devolver_libro cm ahora s i = (s, some Resultado.yaDevuelto) := by
  unfold devolver_libro
  rw [hp]
  simp [hret]

/-- `devolver_libro` on an open loan: the exact resulting state and report. -/
theorem devolver_libro_abierto (cm : Int → Int) (ahora : Int) (s : Estado)
    (i : Nat) (p : Prestamo) (hp : s.prestamos[i]? = some p)
    (hopen : p.devuelto = false) :
    devolver_libro cm ahora s i =
      ({ libros := setDisponible s.libros p.libro true,
         prestamos := s.prestamos.set i { p with devuelto := true },
         sent := s.sent },
       some (if p.fecha_devolucion < ahora then
               Resultado.retraso (Int.fdiv (ahora - p.fecha_devolucion) msPorDia)
                 (cm (Int.fdiv (ahora - p.fecha_devolucion) msPorDia))
             else Resultado.aTiempo)) := by
  unfold devolver_libro
  rw [hp]
  simp only [hopen, Bool.false_eq_true, if_false]

/-- `realizar_prestamo` with an out-of-range book index is a no-op. -/
theorem realizar_prestamo_fuera (notificador : String → String → Bool)
    (ahora : Int) (s : Estado) (li : Nat) (u : Usuario)
    (hlb : s.libros[li]? = none) :
    realizar_prestamo notificador ahora s li u = (s, none) := by
  unfold realizar_prestamo
  rw [hlb]

/-- `realizar_prestamo` on an unavailable book is a no-op returning `none`. -/
theorem realizar_prestamo_cerrado (notificador : String → String → Bool)
    (ahora : Int) (s : Estado) (li : Nat) (u : Usuario) (lb : Libro)
    (hlb : s.libros[li]? = some lb) (hna : lb.disponible = false) :
    realizar_prestamo notificador ahora s li u = (s, none) := by
  unfold realizar_prestamo
  rw [hlb]
  simp [hna]

/-- `devolver_libro` with an out-of-range loan index is a no-op. -/
theorem devolver_libro_fuera (cm : Int → Int) (ahora : Int) (s : Estado)
    (i : Nat) (hp : s.prestamos[i]? = none) :
    devolver_libro cm ahora s i = (s, none) := by
  unfold devolver_libro
  rw [hp]

/-! ### Lemmas about the world-level step -/

theorem setDisponible_getElem_self (L : List Libro) (j : Nat) (b : Bool)
    (lb : Libro) (h : L[j]? = some lb) :
    (setDisponible L j b)[j]? = some { lb with disponible := b } := by
  have hlen : j < L.length := by
    rcases List.getElem?_eq_some_iff.mp h with ⟨hl, _⟩
    exact hl
  unfold setDisponible
  rw [h]
  exact List.getElem?_set_self (by simpa using hlen)

theorem setDisponible_getElem_ne (L : List Libro) (j : Nat) (b : Bool)
    (li : Nat) (h : li ≠ j) :
    (setDisponible L j b)[li]? = L[li]? := by
  unfold setDisponible
  cases hL : L[j]? with
  | none => rfl
  | some lb => exact List.getElem?_set_ne (fun he => h he.symm)

theorem setDisponible_none (L : List Libro) (j : Nat) (b : Bool)
    (h : L[j]? = none) :
    setDisponible L j b = L := by
  unfold setDisponible
  rw [h]

/-- Replacing one loan in a list shifts the open-loan count by the
difference between old and new entry. -/
theorem countP_set_prestamo (f : Prestamo → Bool) :
    ∀ (l : List Prestamo) (i : Nat) (q q' : Prestamo), l[i]? = some q →
      (l.set i q').countP f + (if f q then 1 else 0) =
        l.countP f + (if f q' then 1 else 0) := by
  intro l
  induction l with
  | nil => intro i q q' h; simp at h
  | cons a t ih =>
    intro i q q' h
    cases i with
    | zero =>
      simp only [List.getElem?_cons_zero, Option.some.injEq] at h
      subst h
      simp only [List.set_cons_zero, List.countP_cons]
      omega
    | succ i =>
      simp only [List.getElem?_cons_succ] at h
      have := ih i q q' h
      simp only [List.set_cons_succ, List.countP_cons]
      omega

/-- Replacing one manager shifts the global open-loan count by the
difference between its old and new loan lists. -/
theorem cuentaAbiertosL_set (li : Nat) :
    ∀ (gs : List Gestor) (g : Nat) (gst gst' : Gestor), gs[g]? = some gst →
      cuentaAbiertosL (gs.set g gst') li + gst.prestamos.countP (abierto li) =
        cuentaAbiertosL gs li + gst'.prestamos.countP (abierto li) := by
  intro gs
  induction gs with
  | nil => intro g gst gst' h; simp at h
  | cons a t ih =>
    intro g gst gst' h
    cases g with
    | zero =>
      simp only [List.getElem?_cons_zero, Option.some.injEq] at h
      subst h
      simp only [List.set_cons_zero, cuentaAbiertosL, todosPrestamos,
        List.countP_append]
      omega
    | succ g =>
      simp only [List.getElem?_cons_succ] at h
      have := ih g gst gst' h
      simp only [List.set_cons_succ, cuentaAbiertosL, todosPrestamos,
        List.countP_append] at this ⊢
      omega

/-- A member loan of some manager is counted when it is open for its book. -/
theorem countP_append_singleton (f : Prestamo → Bool) (l : List Prestamo)
    (p : Prestamo) :
    (l ++ [p]).countP f = l.countP f + (if f p then 1 else 0) := by
  simp [List.countP_append, List.countP_cons]

/-- Two worlds with the same books and the same open-loan counts satisfy the
invariant together. -/
theorem invariante_of_counts (s s' : Sistema) (hlib : s'.libros = s.libros)
    (hcnt : ∀ li, cuentaAbiertos s' li = cuentaAbiertos s li)
    (h : Invariante s) : Invariante s' := by
  intro li lb hlb
  rw [hlib] at hlb
  rw [hcnt li]
  exact h li lb hlb

/-- Writing a manager's own fields back unchanged preserves the invariant. -/
theorem inv_escribe_vista (s : Sistema) (g : Nat) (gst : Gestor)
    (hg : s.gestores[g]? = some gst) (h : Invariante s) :
    Invariante (escribe s g (vista s gst)) := by
  refine invariante_of_counts s _ rfl (fun li => ?_) h
  have hc := cuentaAbiertosL_set li s.gestores g gst
      { prestamos := gst.prestamos, sent := gst.sent } hg
  dsimp only [cuentaAbiertos, escribe, vista]
  dsimp only at hc
  omega

/-- A successful `realizar_prestamo` through manager `g` preserves the
invariant. -/
theorem inv_realizar_exito (s : Sistema) (g li0 : Nat) (gst : Gestor)
    (lb0 : Libro) (u : Usuario) (t : Int)
    (hg : s.gestores[g]? = some gst) (hlb0 : s.libros[li0]? = some lb0)
    (hav : lb0.disponible = true) (h : Invariante s) :
    Invariante (escribe s g
      { libros := s.libros.set li0 { lb0 with disponible := false },
        prestamos := gst.prestamos ++ [Prestamo.nuevo li0 u t],
        sent := gst.sent ++
          [(mensajePrestamo lb0.titulo (t + 14 * msPorDia), u.nombre)] }) := by
  have hlen : li0 < s.libros.length := by
    rcases List.getElem?_eq_some_iff.mp hlb0 with ⟨hl, _⟩
    exact hl
  intro li lb hlb
  dsimp only [escribe, cuentaAbiertos] at hlb ⊢
  have hc := cuentaAbiertosL_set li s.gestores g gst
      { prestamos := gst.prestamos ++ [Prestamo.nuevo li0 u t],
        sent := gst.sent ++
          [(mensajePrestamo lb0.titulo (t + 14 * msPorDia), u.nombre)] } hg
  dsimp only at hc
  rw [countP_append_singleton] at hc
  by_cases hli : li = li0
  · subst hli
    rw [List.getElem?_set_self hlen] at hlb
    injection hlb with hlb
    subst hlb
    have hab : abierto li (Prestamo.nuevo li u t) = true := by
      simp [abierto, Prestamo.nuevo]
    simp only [hab, if_true] at hc
    have h0 := h li lb0 hlb0
    dsimp only [cuentaAbiertos] at h0
    obtain ⟨hiff0, hle0⟩ := h0
    have hC0 := hiff0.mp hav
    refine ⟨⟨fun hf => by simp at hf, fun hcc => by exfalso; omega⟩, by omega⟩
  · rw [List.getElem?_set_ne (fun he => hli he.symm)] at hlb
    have hab : abierto li (Prestamo.nuevo li0 u t) = false := by
      have hbe : (li0 == li) = false :=
        beq_eq_false_iff_ne.mpr (fun he => hli he.symm)
      simp [abierto, Prestamo.nuevo, hbe]
    simp [hab] at hc
    have h0 := h li lb hlb
    dsimp only [cuentaAbiertos] at h0
    obtain ⟨hiff0, hle0⟩ := h0
    exact ⟨hiff0.trans ⟨fun hcc => by omega, fun hcc => by omega⟩, by omega⟩

/-- A successful `devolver_libro` on an open loan preserves the invariant. -/
theorem inv_devolver_exito (s : Sistema) (g i0 : Nat) (gst : Gestor)
    (q : Prestamo)
    (hg : s.gestores[g]? = some gst) (hq : gst.prestamos[i0]? = some q)
    (hopen : q.devuelto = false) (h : Invariante s) :
    Invariante (escribe s g
      { libros := setDisponible s.libros q.libro true,
        prestamos := gst.prestamos.set i0 { q with devuelto := true },
        sent := gst.sent }) := by
  intro li lb hlb
  dsimp only [escribe, cuentaAbiertos] at hlb ⊢
  have hc := cuentaAbiertosL_set li s.gestores g gst
      { prestamos := gst.prestamos.set i0 { q with devuelto := true },
        sent := gst.sent } hg
  dsimp only at hc
  have hcs := countP_set_prestamo (abierto li) gst.prestamos i0 q
      { q with devuelto := true } hq
  have hq2 : abierto li { q with devuelto := true } = false := by
    simp [abierto]
  simp [hq2] at hcs
  by_cases hli : li = q.libro
  · subst hli
    cases hlb0 : s.libros[q.libro]? with
    | none =>
      rw [setDisponible_none _ _ _ hlb0, hlb0] at hlb
      exact absurd hlb (by simp)
    | some lb0 =>
      rw [setDisponible_getElem_self _ _ _ _ hlb0] at hlb
      injection hlb with hlb
      subst hlb
      have hab : abierto q.libro q = true := by
        simp [abierto, hopen]
      simp only [hab, if_true] at hcs
      have h0 := h q.libro lb0 hlb0
      dsimp only [cuentaAbiertos] at h0
      obtain ⟨hiff0, hle0⟩ := h0
      refine ⟨⟨fun _ => by omega, fun _ => rfl⟩, by omega⟩
  · rw [setDisponible_getElem_ne _ _ _ _ hli] at hlb
    have hab : abierto li q = false := by
      have hbe : (q.libro == li) = false :=
        beq_eq_false_iff_ne.mpr (fun he => hli he.symm)
      simp [abierto, hbe]
    simp [hab] at hcs
    have h0 := h li lb hlb
    dsimp only [cuentaAbiertos] at h0
    obtain ⟨hiff0, hle0⟩ := h0
    exact ⟨hiff0.trans ⟨fun hcc => by omega, fun hcc => by omega⟩, by omega⟩

/-- Every single call preserves the invariant. -/
theorem inv_step (cfg : Config) (s : Sistema) (c : Cmd) (h : Invariante s) :
    Invariante (step cfg s c) := by
  cases c with
  | realizar g li0 u t =>
    simp only [step]
    split
    · exact h
    · rename_i gst hg
      cases hlb0 : s.libros[li0]? with
      | none =>
        rw [realizar_prestamo_fuera _ _ _ _ _ hlb0]
        exact inv_escribe_vista s g gst hg h
      | some lb0 =>
        cases hd : lb0.disponible with
        | false =>
          rw [realizar_prestamo_cerrado _ _ _ _ _ lb0 hlb0 hd]
          exact inv_escribe_vista s g gst hg h
        | true =>
          rw [realizar_prestamo_disponible _ _ _ _ _ lb0 hlb0 hd]
          exact inv_realizar_exito s g li0 gst lb0 u t hg hlb0 hd h
  | devolver g gd i0 t =>
    simp only [step]
    split
    · exact h
    · rename_i gst hg
      cases hq : gst.prestamos[i0]? with
      | none =>
        rw [devolver_libro_fuera _ _ _ _ hq]
        exact inv_escribe_vista s gd gst hg h
      | some q =>
        cases hdev : q.devuelto with
        | true =>
          rw [devolver_libro_ya _ _ _ _ q hq hdev]
          exact inv_escribe_vista s gd gst hg h
        | false =>
          rw [devolver_libro_abierto _ _ _ _ q hq hdev]
          exact inv_devolver_exito s gd i0 gst q hg hq hdev h

/-- Runs preserve the invariant. -/
theorem inv_run (cfg : Config) (cs : List Cmd) :
    ∀ (s : Sistema), Invariante s → Invariante (run cfg s cs) := by
  induction cs with
  | nil => intro s h; exact h
  | cons c cs ih => intro s h; exact ih (step cfg s c) (inv_step cfg s c h)

theorem todosPrestamos_replicate (n : Nat) :
    todosPrestamos (List.replicate n { prestamos := [], sent := [] }) = [] := by
  induction n with
  | zero => rfl
  | succ n ih => simp [List.replicate_succ, todosPrestamos, ih]

/-- The fresh world satisfies the invariant. -/
theorem inv_inicial (catalogo : List (String × String × String)) (n : Nat) :
    Invariante (Sistema.inicial catalogo n) := by
  intro li lb hlb
  have hdisp : lb.disponible = true := by
    simp only [Sistema.inicial, List.getElem?_map] at hlb
    cases hcat : catalogo[li]? with
    | none => rw [hcat] at hlb; simp at hlb
    | some tt =>
      rw [hcat] at hlb
      simp at hlb
      subst hlb
      rfl
  have hcnt : cuentaAbiertos (Sistema.inicial catalogo n) li = 0 := by
    simp [cuentaAbiertos, Sistema.inicial, cuentaAbiertosL, todosPrestamos_replicate]
  rw [hcnt, hdisp]
  exact ⟨by simp, by omega⟩

/-! ### Claims about the fine calculators -/

/-- C5: for every integer `d ≥ 0`, the standard calculator returns `10·d`,
the student calculator `5·d` and the VIP calculator `0`; in particular all
three return `0` at `d = 0`. -/
theorem c5_calculadoras (d : Int) (h : 0 ≤ d) :
    MultaEstandar.calcular d = 10 * d ∧
    MultaEstudiante.calcular d = 5 * d ∧
    MultaVIP.calcular d = 0 ∧
    MultaEstandar.calcular 0 = 0 ∧
    MultaEstudiante.calcular 0 = 0 ∧
    MultaVIP.calcular 0 = 0 := by
  refine ⟨?_, ?_, rfl, rfl, rfl, rfl⟩ <;>
    simp [MultaEstandar.calcular, MultaEstudiante.calcular, Int.mul_comm]

/-- Witness for C5 at `d = 3`. -/
theorem c5_calculadoras_witness :
    (0 : Int) ≤ 3 ∧
    (MultaEstandar.calcular 3 = 10 * 3 ∧
     MultaEstudiante.calcular 3 = 5 * 3 ∧
     MultaVIP.calcular 3 = 0 ∧
     MultaEstandar.calcular 0 = 0 ∧
     MultaEstudiante.calcular 0 = 0 ∧
     MultaVIP.calcular 0 = 0) :=
  ⟨by decide, c5_calculadoras 3 (by decide)⟩

/-- C10: the calculators validate nothing: for every integer `d`, also
negative ones, the standard calculator returns `10·d` and the student
calculator `5·d` (both negative when `d < 0`) while the VIP calculator
returns `0`; none of them clamps or rejects negative input. -/
theorem c10_sin_validacion (d : Int) :
    MultaEstandar.calcular d = 10 * d ∧
    MultaEstudiante.calcular d = 5 * d ∧
    MultaVIP.calcular d = 0 ∧
    (d < 0 → MultaEstandar.calcular d < 0 ∧ MultaEstudiante.calcular d < 0) := by
  refine ⟨Int.mul_comm d 10, Int.mul_comm d 5, rfl, fun hd => ⟨?_, ?_⟩⟩ <;>
    · simp only [MultaEstandar.calcular, MultaEstudiante.calcular]
      omega

/-- Witness for C10 at `d = -2`: the fines really go negative. -/
theorem c10_sin_validacion_witness :
    MultaEstandar.calcular (-2) = 10 * (-2) ∧
    MultaEstudiante.calcular (-2) = 5 * (-2) ∧
    MultaVIP.calcular (-2) = 0 ∧
    (MultaEstandar.calcular (-2) < 0 ∧ MultaEstudiante.calcular (-2) < 0) :=
  ⟨(c10_sin_validacion (-2)).1, (c10_sin_validacion (-2)).2.1,
   (c10_sin_validacion (-2)).2.2.1, (c10_sin_validacion (-2)).2.2.2 (by decide)⟩

/-! ### Claims about single manager calls -/

/-- C3: `realizar_prestamo` on an unavailable book returns `null` and mutates
nothing: books, loans and the notification log are all exactly as before. -/
theorem c3_no_disponible_sin_mutacion (notificador : String → String → Bool)
    (ahora : Int) (s : Estado) (li : Nat) (u : Usuario) (lb : Libro)
    (hlb : s.libros[li]? = some lb) (hna : lb.disponible = false) :
    realizar_prestamo notificador ahora s li u = (s, none) := by
  unfold realizar_prestamo
  rw [hlb]
  simp [hna]

/-- Witness for C3: issuing the already-loaned book of `estadoMuestra`. -/
theorem c3_no_disponible_sin_mutacion_witness :
    estadoMuestra.libros[0]? = some
      { titulo := "1984", autor := "George Orwell",
        isbn := "978-0-452-28423-4", disponible := false } ∧
    realizar_prestamo NotificadorEmail.enviar 0 estadoMuestra 0 ana =
      (estadoMuestra, none) :=
  ⟨by decide,
   c3_no_disponible_sin_mutacion NotificadorEmail.enviar 0 estadoMuestra 0 ana
     { titulo := "1984", autor := "George Orwell",
       isbn := "978-0-452-28423-4", disponible := false }
     (by decide) (by decide)⟩

/-- C7: `realizar_prestamo` on an available book returns a fresh loan with
`fecha_devolucion = fecha_prestamo + 14` days and `devuelto = false`, marks
the book unavailable, and appends exactly that loan to `prestamos`. -/
theorem c7_prestamo_exitoso (notificador : String → String → Bool)
    (ahora : Int) (s : Estado) (li : Nat) (u : Usuario) (lb : Libro)
    (hlb : s.libros[li]? = some lb) (hav : lb.disponible = true) :
    realizar_prestamo notificador ahora s li u =
      ({ libros := s.libros.set li { lb with disponible := false },
         prestamos := s.prestamos ++ [Prestamo.nuevo li u ahora],
         sent := s.sent ++
           [(mensajePrestamo lb.titulo (ahora + 14 * msPorDia), u.nombre)] },
       some (Prestamo.nuevo li u ahora)) ∧
    (Prestamo.nuevo li u ahora).fecha_devolucion =
      (Prestamo.nuevo li u ahora).fecha_prestamo + 14 * msPorDia ∧
    (Prestamo.nuevo li u ahora).devuelto = false ∧
    (s.libros.set li { lb with disponible := false })[li]? =
      some { lb with disponible := false } := by
  have hlen : li < s.libros.length := by
    rcases List.getElem?_eq_some_iff.mp hlb with ⟨h, _⟩
    exact h
  exact ⟨realizar_prestamo_disponible notificador ahora s li u lb hlb hav,
    rfl, rfl, List.getElem?_set_self hlen⟩

/-- Witness for C7: issuing the available book of `estadoFresco` at time 0. -/
theorem c7_prestamo_exitoso_witness :
    estadoFresco.libros[0]? =
      some (Libro.nuevo "1984" "George Orwell" "978-0-452-28423-4") ∧
    (Libro.nuevo "1984" "George Orwell" "978-0-452-28423-4").disponible = true ∧
    realizar_prestamo NotificadorEmail.enviar 0 estadoFresco 0 ana =
      ({ libros := estadoFresco.libros.set 0
           { Libro.nuevo "1984" "George Orwell" "978-0-452-28423-4" with
               disponible := false },
         prestamos := estadoFresco.prestamos ++ [Prestamo.nuevo 0 ana 0],
         sent := estadoFresco.sent ++
           [(mensajePrestamo "1984" ((0 : Int) + 14 * msPorDia), ana.nombre)] },
       some (Prestamo.nuevo 0 ana 0)) :=
  ⟨by decide, by decide,
   (c7_prestamo_exitoso NotificadorEmail.enviar 0 estadoFresco 0 ana
     (Libro.nuevo "1984" "George Orwell" "978-0-452-28423-4")
     (by decide) (by decide)).1⟩

/-- C4: `devolver_libro` on an already returned loan only reports; the state
is untouched, and therefore any second call on the same loan (after any
first call) mutates nothing further. -/
theorem c4_devolver_idempotente (cm : Int → Int) (ahora : Int) (s : Estado)
    (i : Nat) (p : Prestamo) (hp : s.prestamos[i]? = some p) :
    (p.devuelto = true →
      devolver_libro cm ahora s i = (s, some Resultado.yaDevuelto)) ∧
    ∀ cm2 ahora2,
      devolver_libro cm2 ahora2 (devolver_libro cm ahora s i).1 i =
        ((devolver_libro cm ahora s i).1, some Resultado.yaDevuelto) := by
  have hlen : i < s.prestamos.length := by
    rcases List.getElem?_eq_some_iff.mp hp with ⟨h, _⟩
    exact h
  constructor
  · intro hret
    exact devolver_libro_ya cm ahora s i p hp hret
  · intro cm2 ahora2
    by_cases hret : p.devuelto = true
    · rw [devolver_libro_ya cm ahora s i p hp hret]
      exact devolver_libro_ya cm2 ahora2 s i p hp hret
    · have hopen : p.devuelto = false := by
        cases h : p.devuelto
        · rfl
        · exact absurd h hret
      rw [devolver_libro_abierto cm ahora s i p hp hopen]
      refine devolver_libro_ya cm2 ahora2 _ i { p with devuelto := true } ?_ rfl
      show (s.prestamos.set i { p with devuelto := true })[i]? = _
      rw [List.getElem?_set_self (by simpa using hlen)]

/-- Witness for C4: returning `prestamoMuestra` twice at times 1 and 2. -/
theorem c4_devolver_idempotente_witness :
    estadoMuestra.prestamos[0]? = some prestamoMuestra ∧
    ((prestamoMuestra.devuelto = true →
       devolver_libro MultaEstandar.calcular 1 estadoMuestra 0 =
         (estadoMuestra, some Resultado.yaDevuelto)) ∧
     ∀ cm2 ahora2,
       devolver_libro cm2 ahora2
           (devolver_libro MultaEstandar.calcular 1 estadoMuestra 0).1 0 =
         ((devolver_libro MultaEstandar.calcular 1 estadoMuestra 0).1,
          some Resultado.yaDevuelto)) :=
  ⟨by decide,
   c4_devolver_idempotente MultaEstandar.calcular 1 estadoMuestra 0
     prestamoMuestra (by decide)⟩

/-- C9: a successful `realizar_prestamo` appends exactly one entry to the
notification log, whose message contains the book title and the date-only
ISO form of the due date; the boolean returned by `enviar` is discarded, so
the whole call result is independent of the injected notifier, and the book
mutation and the appended loan stand regardless of it. -/
theorem c9_notificacion (n1 n2 : String → String → Bool) (ahora : Int)
    (s : Estado) (li : Nat) (u : Usuario) (lb : Libro)
    (hlb : s.libros[li]? = some lb) (hav : lb.disponible = true) :
    (realizar_prestamo n1 ahora s li u).1.sent =
      s.sent ++ [(mensajePrestamo lb.titulo (ahora + 14 * msPorDia), u.nombre)] ∧
    (∃ a b, mensajePrestamo lb.titulo (ahora + 14 * msPorDia) =
        a ++ lb.titulo ++ b) ∧
    (∃ a b, mensajePrestamo lb.titulo (ahora + 14 * msPorDia) =
        a ++ fechaISO (ahora + 14 * msPorDia) ++ b) ∧
    realizar_prestamo n1 ahora s li u = realizar_prestamo n2 ahora s li u ∧
    (realizar_prestamo n1 ahora s li u).1.libros =
      s.libros.set li { lb with disponible := false } ∧
    (realizar_prestamo n1 ahora s li u).1.prestamos =
      s.prestamos ++ [Prestamo.nuevo li u ahora] := by
  have h1 := realizar_prestamo_disponible n1 ahora s li u lb hlb hav
  have h2 := realizar_prestamo_disponible n2 ahora s li u lb hlb hav
  refine ⟨by rw [h1], ?_, ?_, h1.trans h2.symm, by rw [h1], by rw [h1]⟩
  · exact ⟨"Has prestado \x27",
      "\x27. Fecha de devolución: " ++ fechaISO (ahora + 14 * msPorDia),
      by simp [mensajePrestamo, String.append_assoc]⟩
  · exact ⟨"Has prestado \x27" ++ lb.titulo ++ "\x27. Fecha de devolución: ",
      "", by simp [mensajePrestamo, String.append_assoc]⟩

/-- Witness for C9: issuing the available book of `estadoFresco` at time 0
under two notifiers that return different booleans. -/
theorem c9_notificacion_witness :
    estadoFresco.libros[0]? =
      some (Libro.nuevo "1984" "George Orwell" "978-0-452-28423-4") ∧
    (realizar_prestamo NotificadorEmail.enviar 0 estadoFresco 0 ana).1.sent =
      estadoFresco.sent ++
        [(mensajePrestamo "1984" ((0 : Int) + 14 * msPorDia), ana.nombre)] ∧
    realizar_prestamo NotificadorEmail.enviar 0 estadoFresco 0 ana =
      realizar_prestamo (fun x y => false) 0 estadoFresco 0 ana := by
  have h := c9_notificacion NotificadorEmail.enviar (fun x y => false) 0
    estadoFresco 0 ana (Libro.nuevo "1984" "George Orwell" "978-0-452-28423-4")
    (by decide) (by decide)
  exact ⟨by decide, h.1, h.2.2.2.1⟩

/-- C2 as stated is false on the code: with the due date at time `0` and the
return at time `1` (one millisecond late, so `now > dueDate`), the code
reports `Math.floor(1 / 86400000) = 0` late days, not a strictly positive
count, and the fine it reports is `calcular 0 = 0`. -/
theorem c2_contraejemplo :
    prestamoMuestra.devuelto = false ∧
    prestamoMuestra.fecha_devolucion < 1 ∧
    (devolver_libro MultaEstandar.calcular 1 estadoMuestra 0).2 =
      some (Resultado.retraso 0 0) ∧
    ¬ (0 : Int) > 0 := by
  refine ⟨rfl, by decide, ?_, by decide⟩
  decide

/-- C2 amended: on an open loan returned at `now` strictly past the due
date, the code computes and reports `daysLate = ⌊(now − dueDate)/1 day⌋`,
which is nonnegative — and strictly positive only when at least one whole
day has elapsed — together with the fine `calculadora_multa(daysLate)`. -/
theorem c2_multa_con_retraso (cm : Int → Int) (ahora : Int) (s : Estado)
    (i : Nat) (p : Prestamo) (hp : s.prestamos[i]? = some p)
    (hopen : p.devuelto = false) (hlate : p.fecha_devolucion < ahora) :
    (devolver_libro cm ahora s i).2 =
      some (Resultado.retraso (Int.fdiv (ahora - p.fecha_devolucion) msPorDia)
        (cm (Int.fdiv (ahora - p.fecha_devolucion) msPorDia))) ∧
    0 ≤ Int.fdiv (ahora - p.fecha_devolucion) msPorDia ∧
    (p.fecha_devolucion + msPorDia ≤ ahora →
      0 < Int.fdiv (ahora - p.fecha_devolucion) msPorDia) := by
  have hb : (0 : Int) < msPorDia := by norm_num [msPorDia]
  refine ⟨by rw [devolver_libro_abierto cm ahora s i p hp hopen, if_pos hlate],
    Int.fdiv_nonneg (by omega) hb.le, fun hday => ?_⟩
  rw [Int.fdiv_eq_ediv _ hb.le, msPorDia_eq]
  rw [msPorDia_eq] at hday
  omega

/-- Witness for C2 (amended): `prestamoMuestra` returned 3 days late. -/
theorem c2_multa_con_retraso_witness :
    estadoMuestra.prestamos[0]? = some prestamoMuestra ∧
    prestamoMuestra.devuelto = false ∧
    prestamoMuestra.fecha_devolucion < 3 * msPorDia ∧
    ((devolver_libro MultaEstandar.calcular (3 * msPorDia) estadoMuestra 0).2 =
      some (Resultado.retraso
        (Int.fdiv (3 * msPorDia - prestamoMuestra.fecha_devolucion) msPorDia)
        (MultaEstandar.calcular
          (Int.fdiv (3 * msPorDia - prestamoMuestra.fecha_devolucion) msPorDia))) ∧
     0 ≤ Int.fdiv (3 * msPorDia - prestamoMuestra.fecha_devolucion) msPorDia ∧
     (prestamoMuestra.fecha_devolucion + msPorDia ≤ 3 * msPorDia →
       0 < Int.fdiv (3 * msPorDia - prestamoMuestra.fecha_devolucion) msPorDia)) :=
  ⟨by decide, by decide, by decide,
   c2_multa_con_retraso MultaEstandar.calcular (3 * msPorDia) estadoMuestra 0
     prestamoMuestra (by decide) (by decide) (by decide)⟩

/-- C6: on an open loan, the days-late value the code reports equals
`max 0 ⌊(now − dueDate)/1 day⌋` — truncating division, not rounding — and on
the on-time branch that expression is `0`. -/
theorem c6_dias_truncados (cm : Int → Int) (ahora : Int) (s : Estado)
    (i : Nat) (p : Prestamo) (hp : s.prestamos[i]? = some p)
    (hopen : p.devuelto = false) :
    (devolver_libro cm ahora s i).2 =
      some (if p.fecha_devolucion < ahora then
          Resultado.retraso
            (max 0 (Int.fdiv (ahora - p.fecha_devolucion) msPorDia))
            (cm (max 0 (Int.fdiv (ahora - p.fecha_devolucion) msPorDia)))
        else Resultado.aTiempo) ∧
    (¬ p.fecha_devolucion < ahora →
      max 0 (Int.fdiv (ahora - p.fecha_devolucion) msPorDia) = 0) := by
  have hb : (0 : Int) < msPorDia := by norm_num [msPorDia]
  have hnp : ¬ p.fecha_devolucion < ahora →
      max 0 (Int.fdiv (ahora - p.fecha_devolucion) msPorDia) = 0 := by
    intro hle
    have hd : Int.fdiv (ahora - p.fecha_devolucion) msPorDia ≤ 0 := by
      rw [Int.fdiv_eq_ediv _ hb.le, msPorDia_eq]
      omega
    omega
  refine ⟨?_, hnp⟩
  rw [devolver_libro_abierto cm ahora s i p hp hopen]
  by_cases hl : p.fecha_devolucion < ahora
  · have hd : 0 ≤ Int.fdiv (ahora - p.fecha_devolucion) msPorDia :=
      Int.fdiv_nonneg (by omega) hb.le
    rw [if_pos hl, if_pos hl, max_eq_right hd]
  · rw [if_neg hl, if_neg hl]

/-- Witness for C6: `prestamoMuestra` returned 3 days late. -/
theorem c6_dias_truncados_witness :
    estadoMuestra.prestamos[0]? = some prestamoMuestra ∧
    prestamoMuestra.devuelto = false ∧
    ((devolver_libro MultaEstudiante.calcular (3 * msPorDia) estadoMuestra 0).2 =
      some (if prestamoMuestra.fecha_devolucion < 3 * msPorDia then
          Resultado.retraso
            (max 0 (Int.fdiv (3 * msPorDia - prestamoMuestra.fecha_devolucion)
              msPorDia))
            (MultaEstudiante.calcular
              (max 0 (Int.fdiv (3 * msPorDia - prestamoMuestra.fecha_devolucion)
                msPorDia)))
        else Resultado.aTiempo) ∧
     (¬ prestamoMuestra.fecha_devolucion < 3 * msPorDia →
       max 0 (Int.fdiv (3 * msPorDia - prestamoMuestra.fecha_devolucion)
         msPorDia) = 0)) :=
  ⟨by decide, by decide,
   c6_dias_truncados MultaEstudiante.calcular (3 * msPorDia) estadoMuestra 0
     prestamoMuestra (by decide) (by decide)⟩

/-! ### Claims about whole runs -/

/-- C1: after any call sequence from a fresh world, a book is available
exactly when no loan of any manager references it unreturned. -/
theorem c1_disponible_iff_sin_abiertos (cfg : Config)
    (catalogo : List (String × String × String)) (n : Nat) (cs : List Cmd)
    (li : Nat) (lb : Libro)
    (hlb : (run cfg (Sistema.inicial catalogo n) cs).libros[li]? = some lb) :
    lb.disponible = true ↔
      ∀ p ∈ todosPrestamos (run cfg (Sistema.inicial catalogo n) cs).gestores,
        p.libro = li → p.devuelto = true := by
  have hinv := inv_run cfg cs (Sistema.inicial catalogo n) (inv_inicial catalogo n)
  rw [(hinv li lb hlb).1]
  unfold cuentaAbiertos cuentaAbiertosL
  rw [List.countP_eq_zero]
  constructor
  · intro hz p hp hpl
    have hnp := hz p hp
    cases hd : p.devuelto with
    | true => rfl
    | false =>
      exfalso
      exact hnp (by simp [abierto, hpl, hd])
  · intro hall p hp habs
    have hpq : p.libro = li ∧ p.devuelto = false := by
      simpa [abierto] using habs
    have := hall p hp hpq.1
    rw [hpq.2] at this
    exact Bool.false_ne_true this

/-- Witness for C1: one issue call from a fresh one-book world leaves the
book unavailable with its loan open. -/
theorem c1_disponible_iff_sin_abiertos_witness :
    (run cfgMuestra
        (Sistema.inicial [("1984", "George Orwell", "978-0-452-28423-4")] 1)
        [Cmd.realizar 0 0 ana 0]).libros[0]? =
      some { titulo := "1984", autor := "George Orwell",
             isbn := "978-0-452-28423-4", disponible := false } ∧
    (({ titulo := "1984", autor := "George Orwell",
        isbn := "978-0-452-28423-4", disponible := false } : Libro).disponible
          = true ↔
      ∀ p ∈ todosPrestamos (run cfgMuestra
          (Sistema.inicial [("1984", "George Orwell", "978-0-452-28423-4")] 1)
          [Cmd.realizar 0 0 ana 0]).gestores,
        p.libro = 0 → p.devuelto = true) :=
  ⟨by decide,
   c1_disponible_iff_sin_abiertos cfgMuestra
     [("1984", "George Orwell", "978-0-452-28423-4")] 1
     [Cmd.realizar 0 0 ana 0] 0
     { titulo := "1984", autor := "George Orwell",
       isbn := "978-0-452-28423-4", disponible := false }
     (by decide)⟩

theorem prestamoEn_escribe_ne (s : Sistema) (g0 g i : Nat) (est : Estado)
    (hne : g ≠ g0) :
    prestamoEn (escribe s g0 est) g i = prestamoEn s g i := by
  unfold prestamoEn escribe
  dsimp only
  rw [List.getElem?_set_ne (fun he => hne he.symm)]

theorem prestamoEn_escribe_self (s : Sistema) (g0 i : Nat) (est : Estado)
    (hlt : g0 < s.gestores.length) :
    prestamoEn (escribe s g0 est) g0 i = est.prestamos[i]? := by
  unfold prestamoEn escribe
  dsimp only
  rw [List.getElem?_set_self hlt]

/-- One call changes a stored loan only in one way: a `devolver` aimed at
exactly that loan, while open, flips `devuelto` to `true`; every other call
leaves the stored loan untouched. -/
theorem prestamoEn_step (cfg : Config) (s : Sistema) (c : Cmd) (g i : Nat)
    (p : Prestamo) (hp : prestamoEn s g i = some p) :
    prestamoEn (step cfg s c) g i = some p ∨
    (p.devuelto = false ∧
     prestamoEn (step cfg s c) g i = some { p with devuelto := true } ∧
     ∃ gc t, c = Cmd.devolver gc g i t) := by
  cases hg : s.gestores[g]? with
  | none =>
    simp only [prestamoEn, hg] at hp
    exact Option.noConfusion hp
  | some gst =>
    simp only [prestamoEn, hg] at hp
    have hglen : g < s.gestores.length := by
      rcases List.getElem?_eq_some_iff.mp hg with ⟨hl, _⟩
      exact hl
    have hilen : i < gst.prestamos.length := by
      rcases List.getElem?_eq_some_iff.mp hp with ⟨hl, _⟩
      exact hl
    cases c with
    | realizar g0 li0 u t =>
      left
      simp only [step]
      split
      · simp only [prestamoEn, hg]
        exact hp
      · rename_i gst0 hg0
        by_cases hgg : g = g0
        · subst hgg
          rw [hg] at hg0
          injection hg0 with hg0
          subst hg0
          rw [prestamoEn_escribe_self s g i _ hglen]
          cases hlb : s.libros[li0]? with
          | none =>
            rw [realizar_prestamo_fuera _ _ _ _ _ hlb]
            exact hp
          | some lb0 =>
            cases hd : lb0.disponible with
            | false =>
              rw [realizar_prestamo_cerrado _ _ _ _ _ lb0 hlb hd]
              exact hp
            | true =>
              rw [realizar_prestamo_disponible _ _ _ _ _ lb0 hlb hd]
              dsimp only [vista]
              rw [List.getElem?_append_left hilen]
              exact hp
        · rw [prestamoEn_escribe_ne s g0 g i _ hgg]
          simp only [prestamoEn, hg]
          exact hp
    | devolver gc gd i0 t =>
      simp only [step]
      split
      · left
        simp only [prestamoEn, hg]
        exact hp
      · rename_i gstd hgd
        by_cases hgg : g = gd
        · subst hgg
          rw [hg] at hgd
          injection hgd with hgd
          subst hgd
          cases hq0 : gst.prestamos[i0]? with
          | none =>
            left
            rw [devolver_libro_fuera _ _ _ _ hq0,
              prestamoEn_escribe_self s g i _ hglen]
            exact hp
          | some q =>
            cases hdev : q.devuelto with
            | true =>
              left
              rw [devolver_libro_ya _ _ _ _ q hq0 hdev,
                prestamoEn_escribe_self s g i _ hglen]
              exact hp
            | false =>
              rw [devolver_libro_abierto _ _ _ _ q hq0 hdev]
              by_cases hii : i = i0
              · subst hii
                have hqp : p = q := by
                  rw [hp] at hq0
                  exact Option.some.inj hq0
                subst hqp
                right
                refine ⟨hdev, ?_, gc, t, rfl⟩
                rw [prestamoEn_escribe_self s g i _ hglen]
                dsimp only [vista]
                rw [List.getElem?_set_self (by simpa using hilen)]
              · left
                rw [prestamoEn_escribe_self s g i _ hglen]
                dsimp only [vista]
                rw [List.getElem?_set_ne (fun he => hii he.symm)]
                exact hp
        · left
          rw [prestamoEn_escribe_ne s gd g i _ hgg]
          simp only [prestamoEn, hg]
          exact hp

/-- C8: over any run, a loan's `devuelto` flag never goes back from `true`
to `false`, and it goes from `false` to `true` only if the sequence contains
a `devolver` call aimed at exactly that loan. -/
theorem c8_devuelto_transicion (cfg : Config) (cs : List Cmd) :
    ∀ (s : Sistema) (g i : Nat) (p p' : Prestamo),
      prestamoEn s g i = some p →
      prestamoEn (run cfg s cs) g i = some p' →
      (p.devuelto = true → p'.devuelto = true) ∧
      (p.devuelto = false → p'.devuelto = true →
        ∃ gc t, Cmd.devolver gc g i t ∈ cs) := by
  induction cs with
  | nil =>
    intro s g i p p' hp hp'
    have h0 : run cfg s [] = s := rfl
    rw [h0, hp] at hp'
    injection hp' with hp'
    subst hp'
    refine ⟨fun h => h, fun h1 h2 => ?_⟩
    rw [h1] at h2
    exact absurd h2 (by simp)
  | cons c cs ih =>
    intro s g i p p' hp hp'
    have hrun : run cfg s (c :: cs) = run cfg (step cfg s c) cs := rfl
    rw [hrun] at hp'
    rcases prestamoEn_step cfg s c g i p hp with h1 | ⟨hopen, h1, gc, t, hc⟩
    · have hih := ih (step cfg s c) g i p p' h1 hp'
      refine ⟨hih.1, fun ha hb => ?_⟩
      rcases hih.2 ha hb with ⟨gc, t, hm⟩
      exact ⟨gc, t, List.mem_cons_of_mem c hm⟩
    · refine ⟨fun htrue => absurd htrue (by simp [hopen]), fun h1 h2 => ⟨gc, t, ?_⟩⟩
      rw [hc]
      exact List.mem_cons_self _ _

/-- Witness for C8: returning `prestamoMuestra` in `sistemaMuestra`. -/
theorem c8_devuelto_transicion_witness :
    prestamoEn sistemaMuestra 0 0 = some prestamoMuestra ∧
    prestamoEn (run cfgMuestra sistemaMuestra [Cmd.devolver 0 0 0 1]) 0 0 =
      some { prestamoMuestra with devuelto := true } ∧
    ((prestamoMuestra.devuelto = true →
        ({ prestamoMuestra with devuelto := true } : Prestamo).devuelto = true) ∧
     (prestamoMuestra.devuelto = false →
      ({ prestamoMuestra with devuelto := true } : Prestamo).devuelto = true →
        ∃ gc t, Cmd.devolver gc 0 0 t ∈ [Cmd.devolver 0 0 0 1])) :=
  ⟨by decide, by decide,
   c8_devuelto_transicion cfgMuestra [Cmd.devolver 0 0 0 1] sistemaMuestra 0 0
     prestamoMuestra { prestamoMuestra with devuelto := true }
     (by decide) (by decide)⟩

end Biblioteca
